import Mathlib

/-!
Verification of lab-control-lib core behaviours: the socket device link
(base.py, SocketDriverBase), the camera acquisition engine (camera.py,
CameraBase) and the experiment manager (manager.py, Manager).

Shallow embedding conventions:
* Byte strings are `List Nat`.
* Each Python object is a Lean structure; a method that mutates `self`
  becomes a function returning the updated structure.
* A Python `raise` that escapes a method is an `Except.error` or an
  error component in the returned pair; the pre-raise state is returned
  unchanged because every raise in the modelled methods happens before
  the first state mutation of that method.
* Background threads (the socket listener, the acquisition loop) are
  modelled by explicit step functions; an execution of the concurrent
  system is a particular sequential composition of those steps, and the
  theorems quantify over the schedule parameters (arriving chunks,
  number of loop iterations, fuel).
-/

/-! ## Device link: SocketDriverBase (src/base.py) -/

/-- State of a `SocketDriverBase` device link: connection flags, the
device socket, the receive buffer and the reply-ready flag from
`src/base.py` lines 186-199 and 237-242. -/
structure SockState where
  connected : Bool
  /-- The `self.initialized` flag of the driver. -/
  inited : Bool
  shutdown_requested : Bool
  /-- True once `self.device_sock.close()` has run. -/
  sock_closed : Bool
  recv_buffer : List Nat
  recv_flag : Bool
deriving DecidableEq

/-- One data chunk handled by the listener thread `_listen_recv`
(base.py lines 256-261): under the lock, the chunk is appended to
`recv_buffer` and `recv_flag` is set. -/
def recvChunk (s : SockState) (d : List Nat) : SockState :=
  { s with recv_buffer := s.recv_buffer ++ d, recv_flag := true }

/-- Events a single `select` poll of `_listen_recv` can observe. -/
inductive PollEvent where
  /-- The socket is in an exceptional condition (`elist` non-empty). -/
  | exc : PollEvent
  /-- Incoming data, read by `_recv_all` up to the terminator. -/
  | dataIn (chunk : List Nat) : PollEvent
  /-- The 0.5 s select timeout expired with nothing to read. -/
  | timeout : PollEvent

/-- One iteration of the `_listen_recv` loop (base.py lines 251-263).
Returns the new state and whether the loop continues: it breaks on an
exceptional socket event, and otherwise breaks as soon as it observes
`shutdown_requested` after handling any incoming data. -/
def listenPoll (s : SockState) (ev : PollEvent) : SockState × Bool :=
  match ev with
  | PollEvent.exc => (s, false)
  | PollEvent.dataIn d =>
      let s1 := recvChunk s d
      (s1, !s1.shutdown_requested)
  | PollEvent.timeout => (s, !s.shutdown_requested)

/-- The part of `device_cmd` executed under the lock before sending
(base.py lines 302-307): `recv_flag.clear()` then the send.  Note that
the receive buffer is left untouched here. -/
def cmdSend (s : SockState) : SockState :=
  { s with recv_flag := false }

/-- The part of `device_cmd` executed under the lock after the wait
(base.py lines 313-318): snapshot `recv_buffer` as the reply and clear
the buffer.  The flag is not cleared here. -/
def cmdCollect (s : SockState) : List Nat × SockState :=
  (s.recv_buffer, { s with recv_buffer := [] })

/-- A full `device_cmd` exchange on an already connected link:
flag clear and send, then the listener appends the chunks that arrive
while the caller waits on `recv_flag`, then the reply is collected.
`arrivals` is the list of chunks the listener delivers between the send
and the collection; the wait terminating corresponds to the final flag
being set, which holds whenever `arrivals` is non-empty. -/
def deviceCmdRun (s : SockState) (arrivals : List (List Nat)) : List Nat × SockState :=
  cmdCollect (arrivals.foldl recvChunk (cmdSend s))

/-- Full `device_cmd` (base.py lines 293-320) including the
connection guard: raises `RuntimeError` when not connected. -/
def deviceCmd (s : SockState) (arrivals : List (List Nat)) :
    Except String (List Nat × SockState) :=
  if s.connected then Except.ok (deviceCmdRun s arrivals)
  else Except.error ("Device not connected.")

/-- The `close_device` method (base.py lines 338-344): closes the
socket and clears the connected and initialization flags. -/
def closeDevice (s : SockState) : SockState :=
  { s with sock_closed := true, connected := false, inited := false }

/-- The `shutdown` method (base.py lines 352-360): returns immediately
when not connected, otherwise only sets `shutdown_requested` (the
socket is not closed here and `connected` is not changed here). -/
def shutdownDrv (s : SockState) : SockState :=
  if s.connected then { s with shutdown_requested := true } else s

/-- A freshly connected link as produced by `connect_device`
(base.py lines 216-243): empty buffer, cleared flag, connected. -/
def connectedLink : SockState :=
  { connected := true, inited := true, shutdown_requested := false,
    sock_closed := false, recv_buffer := [], recv_flag := false }

/-! ## DriverBase.get_meta (src/base.py lines 142-160) -/

/-- Result of one entry of `get_meta`: either the string literal
`unknown` used for keys without a registered call, or the value the
registered metadata call returns. -/
inductive MetaOut (V : Type) where
  | unknown : MetaOut V
  | val (v : V) : MetaOut V
deriving DecidableEq

/-- First-match lookup in an association list, the model of a Python
dict `get`. -/
def lookupKey {K V : Type} [DecidableEq K] : List (K × V) → K → Option V
  | [], _ => none
  | (k1, v1) :: rest, k => if k1 = k then some v1 else lookupKey rest k

/-- Overwrite-or-append update of an association list, the model of a
Python dict item assignment (the entry keeps its position on
overwrite, as a dict key does). -/
def setKey {K V : Type} [DecidableEq K] : List (K × V) → K → V → List (K × V)
  | [], k, v => [(k, v)]
  | (k1, v1) :: rest, k, v =>
      if k1 = k then (k, v) :: rest else (k1, v1) :: setKey rest k v

/-- Removal of a key from an association list together with its value,
the model of a Python dict `pop`: `none` when the key is absent. -/
def popKey {K V : Type} [DecidableEq K] : List (K × V) → K → Option (V × List (K × V))
  | [], _ => none
  | (k1, v1) :: rest, k =>
      if k1 = k then some (v1, rest)
      else (popKey rest k).map (fun p => (p.1, (k1, v1) :: p.2))

/-- The `DriverBase.get_meta` method (base.py lines 142-160): the
registered metadata calls are modelled by the value each call returns,
so `metacalls` maps a key to that value.  When `metakeys` is `none`
all registered keys are used; a requested key without a registered
call maps to `MetaOut.unknown`. -/
def getMeta {V : Type} (metacalls : List (String × V)) (metakeys : Option (List String)) :
    List (String × MetaOut V) :=
  let keys := match metakeys with
    | none => metacalls.map Prod.fst
    | some ks => ks
  keys.map (fun k =>
    (k, match lookupKey metacalls k with
        | none => MetaOut.unknown
        | some v => MetaOut.val v))

/-! ## Camera acquisition engine: CameraBase (src/camera.py) -/

/-- State of a `CameraBase` engine: the flags set up in `__init__`
(camera.py lines 119-157) together with instrumentation counters for
the abstract device calls (`_trigger`, `_readout`) and the two opaque
sinks (`file_writer.store` for storage, `file_streamer.store` for
broadcast). -/
structure CamState where
  armed : Bool
  auto_armed : Bool
  rolling : Bool
  in_scan : Bool
  end_acquisition : Bool
  do_acquire : Bool
  acquire_done : Bool
  grab_metadata : Bool
  /-- The `do_broadcast` config entry read by `is_live`. -/
  is_live : Bool
  counter : Nat
  exposure_time : ℚ
  exposure_number : Nat
  trigger_count : Nat
  readout_count : Nat
  store_count : Nat
  broadcast_count : Nat
deriving DecidableEq

/-- Class attribute `DEFAULT_FPS` of `CameraBase`. -/
def DEFAULT_FPS : ℚ := 5

/-- Class attribute `MAX_FPS` of `CameraBase`. -/
def MAX_FPS : ℚ := 5

/-- The `disarm` method (camera.py lines 376-389): set the
end-of-acquisition flag, run the device-specific `_disarm` (a no-op in
the base class), clear `in_scan` and `armed`. -/
def disarmCam (s : CamState) : CamState :=
  { s with end_acquisition := true, in_scan := false, armed := false }

/-- The `arm` method (camera.py lines 347-373): apply the optional
exposure overrides, capture whether a scan is running (`scanPath` is
the `scan_path` value obtained from the experiment manager), run the
device-specific `_arm`, start the acquisition loop (run explicitly by
the theorems) and set `armed`. -/
def armCam (expTime : Option ℚ) (expNum : Option Nat) (scanPath : Option String)
    (s : CamState) : CamState :=
  let s1 := match expTime with
    | none => s
    | some t => { s with exposure_time := t }
  let s2 := match expNum with
    | none => s1
    | some n => { s1 with exposure_number := n }
  let s3 := { s2 with in_scan := scanPath.isSome }
  { s3 with armed := true }

/-- The body of one `acquisition_loop` iteration after `do_acquire`
has been observed (camera.py lines 252-285).  Returns whether the
loop breaks, and the new state: clear `do_acquire`, run `_trigger`,
set `acquire_done`, run `_readout`, hand the frame to the broadcast
sink unconditionally; when rolling, re-signal `do_acquire` and
continue; otherwise hand the frame to the storage sink, and when the
arming was automatic clear `auto_armed` and break, else `_rearm` and
continue. -/
def loopCycle (s : CamState) : Bool × CamState :=
  let s1 := { s with do_acquire := false,
                     trigger_count := s.trigger_count + 1,
                     acquire_done := true,
                     readout_count := s.readout_count + 1,
                     broadcast_count := s.broadcast_count + 1 }
  if s1.rolling then
    (false, { s1 with do_acquire := true })
  else
    let s2 := { s1 with store_count := s1.store_count + 1 }
    if s2.auto_armed then (true, { s2 with auto_armed := false })
    else (false, s2)

/-- The `acquisition_loop` driver (camera.py lines 245-289) with
explicit fuel bounding the number of observed poll iterations: when
`do_acquire` is set the body runs (and on break the trailing `disarm`
runs); on a wait timeout the loop exits through `disarm` if
`end_acquisition` is set and otherwise polls again.  Exhausted fuel
returns the state of the still-running loop. -/
def acqLoop : Nat → CamState → CamState
  | 0, s => s
  | Nat.succ n, s =>
      if s.do_acquire then
        let r := loopCycle s
        if r.1 then disarmCam r.2 else acqLoop n r.2
      else if s.end_acquisition then disarmCam s
      else acqLoop n s

/-- The caller-side part of `snap` before the wait (camera.py lines
210-231): auto-arm when not armed, build the file name (incrementing
the local counter outside a scan), signal the trigger, wipe the
metadata accumulator and signal metadata capture. -/
def snapPrep (expTime : Option ℚ) (expNum : Option Nat) (scanPath : Option String)
    (s : CamState) : CamState :=
  let s1 := if s.armed then s
    else armCam expTime expNum scanPath { s with auto_armed := true }
  let s2 := if s1.in_scan then s1 else { s1 with counter := s1.counter + 1 }
  let s3 := { s2 with do_acquire := true }
  { s3 with grab_metadata := true }

/-- A complete `snap` call (camera.py lines 200-237) in the schedule
where the acquisition loop runs to completion while the caller waits:
the preparation, then the loop with the given fuel, then the
`acquire_done.clear()` performed by the returning caller. -/
def snapCam (fuel : Nat) (expTime : Option ℚ) (expNum : Option Nat)
    (scanPath : Option String) (s : CamState) : CamState :=
  let s1 := acqLoop fuel (snapPrep expTime expNum scanPath s)
  { s1 with acquire_done := false }

/-- The `live_on` method (camera.py lines 696-701): turn the
broadcaster on. -/
def liveOn (s : CamState) : CamState :=
  { s with is_live := true }

/-- The `roll` method (camera.py lines 391-428).  When rolling:
a request to turn on is a no-op, anything else clears `rolling` and
disarms.  When not rolling: a request to turn off is a no-op,
otherwise ensure live broadcast, set `rolling`, clamp the requested
frame rate to `MAX_FPS` (a missing or zero rate falls back to
`DEFAULT_FPS`, matching the Python truthiness test), derive the
exposure time, signal an immediate trigger and arm if not armed. -/
def rollCam (switch : Option Bool) (fps : Option ℚ) (scanPath : Option String)
    (s : CamState) : CamState :=
  if s.rolling then
    if switch = some true then s
    else disarmCam { s with rolling := false }
  else if switch = some false then s
  else
    let s1 := if s.is_live then s else liveOn s
    let s2 := { s1 with rolling := true }
    let f0 := match fps with
      | none => DEFAULT_FPS
      | some f => if f = 0 then DEFAULT_FPS else f
    let f1 := if MAX_FPS < f0 then MAX_FPS else f0
    let s3 := { s2 with exposure_time := 1 / f1 }
    let s4 := { s3 with do_acquire := true }
    if s4.armed then s4 else armCam none none scanPath s4

/-- A freshly initialized camera (camera.py `__init__` with the
default configuration: broadcast on, counter 0, nothing armed). -/
def initCam : CamState :=
  { armed := false, auto_armed := false, rolling := false, in_scan := false,
    end_acquisition := false, do_acquire := false, acquire_done := false,
    grab_metadata := false, is_live := true, counter := 0,
    exposure_time := 1, exposure_number := 1,
    trigger_count := 0, readout_count := 0,
    store_count := 0, broadcast_count := 0 }

/-! ## Experiment manager (src/manager.py) -/

/-- Severity of a log record emitted by the modelled manager methods. -/
inductive LogLevel where
  | warning : LogLevel
  | error : LogLevel
deriving DecidableEq

/-- The persisted configuration entries of the manager touched by the
investigation and experiment setters. -/
structure MgrConfig where
  investigation : Option String
  experiment : Option String
deriving DecidableEq

/-- The manager state used by the modelled methods: the config store
and the scan-running flag. -/
structure MgrState where
  config : MgrConfig
  running : Bool
deriving DecidableEq

/-- The class attribute `_VALID_CHAR` of `Manager`
(manager.py line 53). -/
def VALID_CHARS : List Char :=
  ("abcdefghijklmnopqrstuvwxyzABCDEFGHIJKLMNOPQRSTUVWXYZ0123456789_-:").data

/-- The `_valid_name` check (manager.py lines 340-344). -/
def validName (s : String) : Bool :=
  s.data.all (fun c => VALID_CHARS.contains c)

/-- The `experiment` setter (manager.py lines 385-396).  Returns the
resulting state and the raised error message if any; every raise
happens before the config assignment, so the state is unchanged on
error. -/
def setExperiment (st : MgrState) (v : Option String) : MgrState × Option String :=
  match v with
  | none => (st, some ("Experiment should not be set to None"))
  | some s =>
      if st.running then
        (st, some ("Experiment cannot be modified while a scan is running."))
      else if st.config.investigation.isNone then
        (st, some ("Investigation is not set."))
      else if !(validName s) then
        (st, some ("Invalid experiment name: " ++ s))
      else
        ({ st with config := { st.config with experiment := some s } }, none)

/-- The `investigation` setter (manager.py lines 366-375): on success
it stores the new investigation and resets the stored experiment to
None. -/
def setInvestigation (st : MgrState) (v : Option String) : MgrState × Option String :=
  match v with
  | none => (st, some ("Investigation should not be set to None"))
  | some s =>
      if st.running then
        (st, some ("Investigation cannot be modified while a scan is running."))
      else if !(validName s) then
        (st, some ("Invalid investigation name: " ++ s))
      else
        ({ st with config := { investigation := some s, experiment := none } }, none)

/-- One directory entry as seen by `os.scandir`. -/
structure DirEntry where
  name : String
  isDir : Bool
deriving DecidableEq

/-- Numeric value of a non-empty all-digit character list. -/
def digitsVal : List Char → Option Nat
  | [] => none
  | l =>
      if l.all Char.isDigit then
        some (l.foldl (fun a c => 10 * a + (c.toNat - 48)) 0)
      else none

/-- The Python `int` constructor applied to a short string, modelled
on an optional sign followed by decimal digits.  The other forms
Python accepts (surrounding whitespace, embedded underscores) do not
occur in scan directory prefixes. -/
def pyIntOpt (s : String) : Option Int :=
  match s.data with
  | '-' :: rest => (digitsVal rest).map (fun n => -(n : Int))
  | '+' :: rest => (digitsVal rest).map (fun n => (n : Int))
  | l => (digitsVal l).map (fun n => (n : Int))

/-- The directory-scanning computation of `next_scan` (manager.py
lines 313-324): collect `int(f.name[:6])` over the sub-directories of
the experiment path and return the maximum plus one, with `-1` as the
default maximum (so an empty directory yields 0).  A sub-directory
whose 6-character prefix does not parse raises `ValueError`. -/
def nextScanOf (entries : List DirEntry) : Except String Int :=
  match (entries.filter (fun e => e.isDir)).mapM (fun f => pyIntOpt (f.name.take 6)) with
  | none => Except.error ("ValueError: invalid literal for int")
  | some ns => Except.ok (ns.foldl max (-1) + 1)

/-- The state of one per-source metadata fetch future spawned by
`request_meta` (manager.py line 177): still pending, or finished with
the value `fetch_meta` returned, which is `none` when the client was
absent and otherwise the metadata together with the elapsed time. -/
inductive FutState (V : Type) where
  | pending : FutState V
  | done (r : Option (V × Nat)) : FutState V
deriving DecidableEq

/-- The per-request map built by `request_meta`: one pending future
per currently registered client not excluded. -/
def newRequest {V : Type} (clients : List String) (excl : List String) :
    List (String × FutState V) :=
  (clients.filter (fun n => !(excl.contains n))).map (fun n => (n, FutState.pending))

/-- The `request_meta` method (manager.py lines 161-178): warn when an
unclaimed request is stored under the same ID, then overwrite it with
the fresh map of pending futures.  Returns the new requests dict and
the emitted log record, if any. -/
def requestMeta {V : Type} (reqs : List (Option String × List (String × FutState V)))
    (clients : List String) (rid : Option String) (excl : List String) :
    List (Option String × List (String × FutState V)) × Option LogLevel :=
  let dup := lookupKey reqs rid
  let w := if dup.isSome then some LogLevel.warning else none
  (setKey reqs rid (newRequest clients excl), w)

/-- The collection loop inside `return_meta` (manager.py lines
190-199): a pending future is logged as not completed in time and
omitted; a finished future contributes its metadata unless
`fetch_meta` returned None. -/
def collectMeta {V : Type} (req : List (String × FutState V)) :
    List (String × V) × List LogLevel :=
  req.foldr (fun e acc =>
    match e.2 with
    | FutState.pending => (acc.1, LogLevel.warning :: acc.2)
    | FutState.done none => acc
    | FutState.done (some r) => ((e.1, r.1) :: acc.1, acc.2)) ([], [])

/-- The `return_meta` method (manager.py lines 180-201): pop the
stored request.  When the ID is unknown, the code logs an error and
then evaluates `request.items()` on the Ellipsis default, which
raises `AttributeError`; this is the `Except.error` branch.  Otherwise
the collected aggregate is returned and the request is removed.
The result is (outcome, remaining requests, emitted log records). -/
def returnMeta {V : Type} (reqs : List (Option String × List (String × FutState V)))
    (rid : Option String) :
    Except String (List (String × V)) ×
      List (Option String × List (String × FutState V)) × List LogLevel :=
  match popKey reqs rid with
  | none =>
      (Except.error ("AttributeError: ellipsis object has no attribute items"),
       reqs, [LogLevel.error])
  | some (req, rest) =>
      let c := collectMeta req
      (Except.ok c.1, rest, c.2)

/-! ## Helper lemmas -/

/-- Folding the listener append over a list of chunks appends their
concatenation to the buffer. -/
theorem foldl_recvChunk_buffer (a : List (List Nat)) (t : SockState) :
    (a.foldl recvChunk t).recv_buffer = t.recv_buffer ++ a.flatten := by
  induction a generalizing t with
  | nil => simp
  | cons d rest ih =>
      simp [List.foldl_cons, ih, recvChunk, List.append_assoc]

/-- Updating a key makes it look up to the new value. -/
theorem lookupKey_setKey_self {K V : Type} [DecidableEq K]
    (l : List (K × V)) (k : K) (v : V) :
    lookupKey (setKey l k v) k = some v := by
  induction l with
  | nil => simp [setKey, lookupKey]
  | cons p rest ih =>
      by_cases h : p.1 = k
      · simp [setKey, h, lookupKey]
      · simp [setKey, h, lookupKey, ih]

/-- The fold of `max` dominates every element of the list. -/
theorem le_foldl_max (l : List Int) (a : Int) :
    a ≤ l.foldl max a ∧ ∀ x ∈ l, x ≤ l.foldl max a := by
  induction l generalizing a with
  | nil => simp
  | cons b t ih =>
      have h1 := (ih (max a b)).1
      refine ⟨le_trans (le_max_left a b) h1, ?_⟩
      intro x hx
      rcases List.mem_cons.mp hx with h | h
      · rw [h]
        exact le_trans (le_max_right a b) h1
      · exact (ih (max a b)).2 x h

/-- The fold of `max` is the start value or an element of the list. -/
theorem foldl_max_mem (l : List Int) (a : Int) :
    l.foldl max a = a ∨ l.foldl max a ∈ l := by
  induction l generalizing a with
  | nil => simp
  | cons b t ih =>
      rcases ih (max a b) with h | h
      · rcases max_choice a b with hc | hc
        · left
          simp only [List.foldl_cons]
          rw [h, hc]
        · right
          apply List.mem_cons.mpr
          left
          simp only [List.foldl_cons]
          rw [h, hc]
      · right
        simp only [List.foldl_cons]
        exact List.mem_cons_of_mem b h

/-- While rolling with no automatic arming, every acquisition-loop
iteration broadcasts and re-signals itself: the rolling flag, the
cleared `auto_armed` flag and the pending trigger are preserved and
nothing is handed to the storage sink. -/
theorem acqLoop_roll_inv (n : Nat) (s : CamState) (hr : s.rolling = true)
    (ha : s.auto_armed = false) (hd : s.do_acquire = true) :
    (acqLoop n s).rolling = true ∧ (acqLoop n s).auto_armed = false ∧
    (acqLoop n s).do_acquire = true ∧ (acqLoop n s).store_count = s.store_count := by
  induction n generalizing s with
  | zero => exact ⟨hr, ha, hd, rfl⟩
  | succ n ih =>
      have hstep : acqLoop (n + 1) s =
          acqLoop n { s with do_acquire := true,
                             trigger_count := s.trigger_count + 1,
                             acquire_done := true,
                             readout_count := s.readout_count + 1,
                             broadcast_count := s.broadcast_count + 1 } := by
        simp [acqLoop, hd, loopCycle, hr]
      rw [hstep]
      exact ih _ hr ha rfl

/-- Once rolling is cleared while a trigger is still pending and the
end-of-acquisition flag is set, the loop performs exactly one more
cycle (which stores the frame) and then exits through `disarm`. -/
theorem acqLoop_finish (m : Nat) (s : CamState) (hm : 2 ≤ m)
    (hd : s.do_acquire = true) (hr : s.rolling = false)
    (ha : s.auto_armed = false) (he : s.end_acquisition = true) :
    (acqLoop m s).store_count = s.store_count + 1 ∧
    (acqLoop m s).armed = false ∧ (acqLoop m s).rolling = false := by
  obtain ⟨k, rfl⟩ : ∃ k, m = k + 2 := ⟨m - 2, by omega⟩
  have hstep : acqLoop (k + 2) s =
      acqLoop (k + 1) { s with do_acquire := false,
                               trigger_count := s.trigger_count + 1,
                               acquire_done := true,
                               readout_count := s.readout_count + 1,
                               broadcast_count := s.broadcast_count + 1,
                               store_count := s.store_count + 1 } := by
    simp [acqLoop, hd, loopCycle, hr, ha]
  rw [hstep]
  have hstep2 : acqLoop (k + 1)
      { s with do_acquire := false,
               trigger_count := s.trigger_count + 1,
               acquire_done := true,
               readout_count := s.readout_count + 1,
               broadcast_count := s.broadcast_count + 1,
               store_count := s.store_count + 1 } =
      disarmCam { s with do_acquire := false,
                         trigger_count := s.trigger_count + 1,
                         acquire_done := true,
                         readout_count := s.readout_count + 1,
                         broadcast_count := s.broadcast_count + 1,
                         store_count := s.store_count + 1 } := by
    simp [acqLoop, he]
  rw [hstep2]
  simp [disarmCam, hr]

/-- With distinct registered keys, looking up the key of any stored
pair yields the value of that pair. -/
theorem lookupKey_of_nodup {V : Type} (mc : List (String × V))
    (hnd : (mc.map Prod.fst).Nodup) :
    ∀ p ∈ mc, lookupKey mc p.1 = some p.2 := by
  induction mc with
  | nil => intro p hp; cases hp
  | cons q rest ih =>
      intro p hp
      have hnd2 : q.1 ∉ rest.map Prod.fst ∧ (rest.map Prod.fst).Nodup := by
        rw [List.map_cons] at hnd
        exact List.nodup_cons.mp hnd
      rcases List.mem_cons.mp hp with h | h
      · rw [h]
        simp [lookupKey]
      · have hne : q.1 ≠ p.1 := by
          intro hEq
          exact hnd2.1 (hEq ▸ List.mem_map_of_mem Prod.fst h)
        simp only [lookupKey, hne, if_false]
        exact ih hnd2.2 p h

/-! ## Claim theorems -/

/-- C1 (counterexample): the claim that the receive buffer is cleared
atomically with the ready-signal reset before each new command, so
that each reply consists only of data received after its own command,
is false.  Concretely: command 1 receives chunk `[99, 10]`; the device
then delivers a late extra chunk `[65]` before command 2 is sent; the
reply collected for command 2 is `[65, 66, 10]`, which contains the
leftover byte 65 received before command 2, instead of the post-send
data `[66, 10]` alone.  The pre-send step `cmdSend` demonstrably does
not clear the buffer. -/
theorem C1_reply_leftover_counterexample :
    (deviceCmdRun (recvChunk (deviceCmdRun connectedLink [[99, 10]]).2 [65]) [[66, 10]]).1
        = [65, 66, 10] ∧
    ([65, 66, 10] : List Nat) ≠ List.flatten [[66, 10]] ∧
    (cmdSend (recvChunk connectedLink [65])).recv_buffer = [65] := by
  refine ⟨rfl, by decide, rfl⟩

/-- C1 (amended): the receive buffer is cleared atomically with the
reply snapshot when a reply is collected, not before a command is
sent; before sending, only the ready-signal is reset.  Consequently,
whenever the buffer is empty when a command is issued (which holds
after any reply collection provided no data arrived in between), the
reply of that command is exactly the concatenation of the chunks
received after it was sent, and the same holds for the next command
issued on the resulting state. -/
theorem C1_buffer_cleared_on_collect (s : SockState) (a1 a2 : List (List Nat))
    (hbuf : s.recv_buffer = []) :
    (cmdSend s).recv_buffer = s.recv_buffer ∧
    (cmdSend s).recv_flag = false ∧
    ((deviceCmdRun s a1).2).recv_buffer = [] ∧
    (deviceCmdRun s a1).1 = a1.flatten ∧
    (deviceCmdRun (deviceCmdRun s a1).2 a2).1 = a2.flatten := by
  have h1 : ∀ (t : SockState) (a : List (List Nat)),
      (deviceCmdRun t a).1 = t.recv_buffer ++ a.flatten := by
    intro t a
    simp [deviceCmdRun, cmdCollect, foldl_recvChunk_buffer, cmdSend]
  have h2 : ∀ (t : SockState) (a : List (List Nat)),
      ((deviceCmdRun t a).2).recv_buffer = [] := by
    intro t a
    rfl
  refine ⟨rfl, rfl, h2 s a1, ?_, ?_⟩
  · rw [h1 s a1, hbuf]
    simp
  · rw [h1 _ a2, h2 s a1]
    simp

/-- C1 (witness): a concrete two-command session on a fresh link in
which each reply equals exactly the data received after its own
command. -/
theorem C1_buffer_cleared_on_collect_witness :
    connectedLink.recv_buffer = [] ∧
    (deviceCmdRun connectedLink [[104, 105, 10]]).1 = [104, 105, 10] ∧
    (deviceCmdRun (deviceCmdRun connectedLink [[104, 105, 10]]).2 [[111, 10]]).1 = [111, 10] := by
  have h := C1_buffer_cleared_on_collect connectedLink [[104, 105, 10]] [[111, 10]] rfl
  refine ⟨rfl, ?_, ?_⟩
  · rw [h.2.2.2.1]
    decide
  · rw [h.2.2.2.2]
    decide

/-- C8 (counterexample): the claim that `shutdown()` on a connected
link closes the device socket and marks the link disconnected is
false: on a freshly connected link, `shutdown` leaves `connected`
true and the socket open. -/
theorem C8_shutdown_not_closing_counterexample :
    (shutdownDrv connectedLink).connected = true ∧
    (shutdownDrv connectedLink).sock_closed = false := by
  exact ⟨rfl, rfl⟩

/-- C8 (amended): `shutdown()` is idempotent and, when the link is
connected, only flips the shutdown flag, after which the background
receiver exits at its next poll whatever that poll observes; the
socket close and the disconnected marking are performed by
`close_device` (reached through `stop()` or the keep-alive loop on a
detected disconnection), which is itself idempotent. -/
theorem C8_shutdown_flag_only (s : SockState) (hc : s.connected = true) :
    shutdownDrv (shutdownDrv s) = shutdownDrv s ∧
    (shutdownDrv s).shutdown_requested = true ∧
    (∀ ev, (listenPoll (shutdownDrv s) ev).2 = false) ∧
    closeDevice (closeDevice s) = closeDevice s ∧
    (closeDevice s).sock_closed = true ∧
    (closeDevice s).connected = false := by
  refine ⟨?_, ?_, ?_, rfl, rfl, rfl⟩
  · simp [shutdownDrv, hc]
  · simp [shutdownDrv, hc]
  · intro ev
    cases ev with
    | exc => rfl
    | dataIn d => simp [listenPoll, shutdownDrv, hc, recvChunk]
    | timeout => simp [listenPoll, shutdownDrv, hc]

/-- C8 (witness): the amended behaviour evaluated on a freshly
connected link. -/
theorem C8_shutdown_flag_only_witness :
    connectedLink.connected = true ∧
    shutdownDrv (shutdownDrv connectedLink) = shutdownDrv connectedLink ∧
    (shutdownDrv connectedLink).shutdown_requested = true := by
  have h := C8_shutdown_flag_only connectedLink rfl
  exact ⟨rfl, h.1, h.2.1⟩

/-- Field values of the state produced by the caller side of `snap`
on a disarmed camera: the camera is auto-armed, the trigger is
signalled and no counter or flag relevant to the cycle has moved. -/
theorem snapPrep_fields (expT : Option ℚ) (expN : Option Nat) (scanPath : Option String)
    (s : CamState) (harm : s.armed = false) :
    (snapPrep expT expN scanPath s).auto_armed = true ∧
    (snapPrep expT expN scanPath s).armed = true ∧
    (snapPrep expT expN scanPath s).rolling = s.rolling ∧
    (snapPrep expT expN scanPath s).do_acquire = true ∧
    (snapPrep expT expN scanPath s).trigger_count = s.trigger_count ∧
    (snapPrep expT expN scanPath s).readout_count = s.readout_count ∧
    (snapPrep expT expN scanPath s).store_count = s.store_count ∧
    (snapPrep expT expN scanPath s).broadcast_count = s.broadcast_count := by
  cases expT <;> cases expN <;>
    simp [snapPrep, armCam, harm] <;>
    split <;> simp

/-- An acquisition-loop run entered with a pending trigger, rolling
off and the automatic-arm flag set performs exactly one cycle and
exits through `disarm`, whatever fuel remains. -/
theorem acqLoop_auto_once (n : Nat) (p : CamState) (hd : p.do_acquire = true)
    (hr : p.rolling = false) (ha : p.auto_armed = true) :
    acqLoop (n + 1) p = disarmCam
      { p with do_acquire := false,
               trigger_count := p.trigger_count + 1,
               acquire_done := true,
               readout_count := p.readout_count + 1,
               broadcast_count := p.broadcast_count + 1,
               store_count := p.store_count + 1,
               auto_armed := false } := by
  simp [acqLoop, hd, loopCycle, hr, ha]

/-- C2: a `snap` call on a disarmed engine auto-arms it (setting
`auto_armed`), performs exactly one trigger and one readout, hands
exactly one frame to the storage sink and exactly one to the
broadcast sink, clears `auto_armed` after that single cycle and
leaves the engine disarmed, for any fuel left to the loop. -/
theorem C2_snap_single_cycle (s : CamState) (n : Nat) (expT : Option ℚ)
    (expN : Option Nat) (scanPath : Option String)
    (harm : s.armed = false) (hroll : s.rolling = false) :
    (snapPrep expT expN scanPath s).auto_armed = true ∧
    (snapCam (n + 1) expT expN scanPath s).trigger_count = s.trigger_count + 1 ∧
    (snapCam (n + 1) expT expN scanPath s).readout_count = s.readout_count + 1 ∧
    (snapCam (n + 1) expT expN scanPath s).store_count = s.store_count + 1 ∧
    (snapCam (n + 1) expT expN scanPath s).broadcast_count = s.broadcast_count + 1 ∧
    (snapCam (n + 1) expT expN scanPath s).auto_armed = false ∧
    (snapCam (n + 1) expT expN scanPath s).armed = false := by
  have hp := snapPrep_fields expT expN scanPath s harm
  have hloop := acqLoop_auto_once n (snapPrep expT expN scanPath s)
    hp.2.2.2.1 (by rw [hp.2.2.1]; exact hroll) hp.1
  refine ⟨hp.1, ?_, ?_, ?_, ?_, ?_, ?_⟩ <;>
    simp [snapCam, hloop, disarmCam, hp.2.2.2.2.1, hp.2.2.2.2.2.1,
          hp.2.2.2.2.2.2.1, hp.2.2.2.2.2.2.2]

/-- C2 (witness): a single `snap` on a freshly initialized camera
stores one frame, broadcasts one frame and returns to disarmed. -/
theorem C2_snap_single_cycle_witness :
    (snapCam 1 none none none initCam).store_count = 1 ∧
    (snapCam 1 none none none initCam).broadcast_count = 1 ∧
    (snapCam 1 none none none initCam).auto_armed = false ∧
    (snapCam 1 none none none initCam).armed = false := by
  have h := C2_snap_single_cycle initCam 0 none none none rfl rfl
  exact ⟨h.2.2.2.1, h.2.2.2.2.1, h.2.2.2.2.2.1, h.2.2.2.2.2.2⟩

/-- Field values after turning rolling on from a non-rolling,
disarmed state: rolling is set, a trigger is pending, the camera is
armed and no frame has been stored by the call itself. -/
theorem rollCam_on_fields (fps : Option ℚ) (scanPath : Option String) (s : CamState)
    (hroll : s.rolling = false) (harm : s.armed = false) :
    (rollCam (some true) fps scanPath s).rolling = true ∧
    (rollCam (some true) fps scanPath s).auto_armed = s.auto_armed ∧
    (rollCam (some true) fps scanPath s).do_acquire = true ∧
    (rollCam (some true) fps scanPath s).armed = true ∧
    (rollCam (some true) fps scanPath s).store_count = s.store_count := by
  cases fps <;>
    simp [rollCam, hroll, harm, liveOn, armCam] <;>
    split <;> simp [harm, armCam]

/-- Turning rolling off while rolling clears the flag and disarms,
whatever the other arguments are. -/
theorem rollCam_off (fps : Option ℚ) (scanPath : Option String) (s : CamState)
    (h : s.rolling = true) :
    rollCam (some false) fps scanPath s = disarmCam { s with rolling := false } := by
  simp [rollCam, h]

/-- C5 (counterexample): the claim that a `roll(True)`/`roll(False)`
pair hands zero frames to the storage sink is false: starting from a
fresh camera, turning rolling on leaves a pending trigger, and after
turning rolling off the loop processes that pending trigger with the
rolling flag already cleared, handing the frame to the storage sink:
the stored-frame count ends at 1, not 0. -/
theorem C5_roll_trailing_store_counterexample :
    (acqLoop 2 (rollCam (some false) none none
        (rollCam (some true) none none initCam))).store_count = 1 ∧
    (1 : Nat) ≠ 0 := by
  exact ⟨rfl, by decide⟩

/-- C5 (amended): during rolling every captured frame is handed only
to the broadcast sink — after any number of rolling cycles the
stored-frame count is unchanged — but the `roll(True)`/`roll(False)`
pair as a whole hands exactly one frame to the storage sink: the
trigger left pending when rolling is switched off is read out after
the rolling flag is cleared, and that trailing frame is stored.  The
engine is left disarmed and not rolling. -/
theorem C5_roll_single_trailing_store (s : CamState) (k m : Nat)
    (fps : Option ℚ) (scanPath : Option String)
    (hroll : s.rolling = false) (harm : s.armed = false)
    (ha : s.auto_armed = false) (hm : 2 ≤ m) :
    (acqLoop k (rollCam (some true) fps scanPath s)).store_count = s.store_count ∧
    (acqLoop m (rollCam (some false) none scanPath
        (acqLoop k (rollCam (some true) fps scanPath s)))).store_count
      = s.store_count + 1 ∧
    (acqLoop m (rollCam (some false) none scanPath
        (acqLoop k (rollCam (some true) fps scanPath s)))).armed = false ∧
    (acqLoop m (rollCam (some false) none scanPath
        (acqLoop k (rollCam (some true) fps scanPath s)))).rolling = false := by
  have hon := rollCam_on_fields fps scanPath s hroll harm
  have hinv := acqLoop_roll_inv k (rollCam (some true) fps scanPath s)
    hon.1 (by rw [hon.2.1]; exact ha) hon.2.2.1
  have hstore2 : (acqLoop k (rollCam (some true) fps scanPath s)).store_count
      = s.store_count := by
    rw [hinv.2.2.2, hon.2.2.2.2]
  have hoff := rollCam_off none scanPath
    (acqLoop k (rollCam (some true) fps scanPath s)) hinv.1
  rw [hoff]
  have hfin := acqLoop_finish m
    (disarmCam { acqLoop k (rollCam (some true) fps scanPath s) with rolling := false })
    hm (by simp [disarmCam, hinv.2.2.1]) (by simp [disarmCam])
    (by simp [disarmCam, hinv.2.1]) (by simp [disarmCam])
  refine ⟨hstore2, ?_, hfin.2.1, hfin.2.2⟩
  rw [hfin.1]
  simp [disarmCam, hstore2]

/-- C5 (witness): the amended behaviour evaluated on a fresh camera
with three rolling cycles: no frame is stored while rolling, exactly
one is stored by the trailing cycle and the engine ends disarmed. -/
theorem C5_roll_single_trailing_store_witness :
    (acqLoop 3 (rollCam (some true) none none initCam)).store_count = 0 ∧
    (acqLoop 2 (rollCam (some false) none none
        (acqLoop 3 (rollCam (some true) none none initCam)))).store_count = 1 ∧
    (acqLoop 2 (rollCam (some false) none none
        (acqLoop 3 (rollCam (some true) none none initCam)))).armed = false := by
  have h := C5_roll_single_trailing_store initCam 3 2 none none rfl rfl rfl (by decide)
  exact ⟨h.1, h.2.1, h.2.2.1⟩

/-- A concrete request table holding one uncollected request under ID
X whose two per-source fetches are both still pending. -/
def c3Requests : List (Option String × List (String × FutState Nat)) :=
  [(some ("X"), [(("cam"), FutState.pending), (("mgr"), FutState.pending)])]

/-- C3: collecting before any fetch completed returns the empty
aggregate with a not-completed warning per source and consumes the
request; but a second collection under the same ID does not return an
empty aggregate as claimed: after logging the unknown-ID error the
code evaluates `items()` on the Ellipsis default, which raises
`AttributeError` to the caller. -/
theorem C3_return_meta_unknown_id_raises :
    (returnMeta c3Requests (some ("X"))).1 = Except.ok [] ∧
    (returnMeta c3Requests (some ("X"))).2.1 = [] ∧
    (returnMeta c3Requests (some ("X"))).2.2 = [LogLevel.warning, LogLevel.warning] ∧
    (returnMeta ((returnMeta c3Requests (some ("X"))).2.1) (some ("X"))).1
      = Except.error ("AttributeError: ellipsis object has no attribute items") ∧
    (returnMeta ((returnMeta c3Requests (some ("X"))).2.1) (some ("X"))).2.2
      = [LogLevel.error] := by
  exact ⟨rfl, rfl, rfl, rfl, rfl⟩

/-- C4: `next_scan` returns 0 when the experiment directory has no
sub-directories, and otherwise one plus the maximum of the parsed
numeric prefixes of the sub-directory names: the fold that the code
computes dominates every parsed prefix and, when the prefixes are
the non-negative numbers a digit prefix yields, is one of them. -/
theorem C4_next_scan_max_plus_one (entries : List DirEntry) :
    (entries.filter (fun e => e.isDir) = [] → nextScanOf entries = Except.ok 0) ∧
    (∀ ns : List Int,
      (entries.filter (fun e => e.isDir)).mapM (fun f => pyIntOpt (f.name.take 6))
          = some ns →
      nextScanOf entries = Except.ok (ns.foldl max (-1) + 1) ∧
      (∀ x ∈ ns, x ≤ ns.foldl max (-1)) ∧
      (ns ≠ [] → (∀ x ∈ ns, 0 ≤ x) → ns.foldl max (-1) ∈ ns)) := by
  constructor
  · intro h
    rw [nextScanOf, h]
    rfl
  · intro ns h
    refine ⟨by rw [nextScanOf, h], (le_foldl_max ns (-1)).2, ?_⟩
    intro hne hpos
    rcases foldl_max_mem ns (-1) with hm | hm
    · obtain ⟨x, hx⟩ := List.exists_mem_of_ne_nil ns hne
      have h1 := (le_foldl_max ns (-1)).2 x hx
      have h2 := hpos x hx
      rw [hm] at h1
      omega
    · exact hm

/-- Directory listing with sub-folders prefixed 000001 and 000005. -/
def c4Entries : List DirEntry :=
  [{ name := ("000001_22-01-01_a"), isDir := true },
   { name := ("000005_22-01-02_b"), isDir := true }]

/-- C4 (witness): the modelled `next_scan` returns 6 on the
000001/000005 listing and 0 on an empty directory. -/
theorem C4_next_scan_max_plus_one_witness :
    nextScanOf c4Entries = Except.ok 6 ∧ nextScanOf [] = Except.ok 0 := by
  have h := (C4_next_scan_max_plus_one c4Entries).2 [1, 5] (by decide)
  have h0 := (C4_next_scan_max_plus_one []).1 rfl
  refine ⟨?_, h0⟩
  rw [h.1]
  norm_num

/-- C6: whenever the stored investigation is unset, assigning any
value to `experiment` raises (the error component is set) and the
manager state — in particular the stored experiment name — is
unchanged. -/
theorem C6_experiment_requires_investigation (st : MgrState) (v : Option String)
    (hinv : st.config.investigation = none) :
    (setExperiment st v).2.isSome = true ∧
    (setExperiment st v).1 = st := by
  cases v with
  | none => exact ⟨rfl, rfl⟩
  | some s =>
      by_cases hr : st.running
      · simp [setExperiment, hr]
      · simp [setExperiment, hr, hinv]

/-- A manager state whose investigation is unset but which still holds
a previously stored experiment name. -/
def c6State : MgrState :=
  { config := { investigation := none, experiment := some ("old") }, running := false }

/-- C6 (witness): setting the experiment with the investigation unset
raises and leaves the stored experiment name untouched. -/
theorem C6_experiment_requires_investigation_witness :
    (setExperiment c6State (some ("exp1"))).2.isSome = true ∧
    (setExperiment c6State (some ("exp1"))).1.config.experiment = some ("old") := by
  have h := C6_experiment_requires_investigation c6State (some ("exp1")) rfl
  refine ⟨h.1, ?_⟩
  rw [h.2]
  rfl

/-- C7: when an uncollected request is already stored under the given
ID, `request_meta` overwrites it with the fresh map of pending
fetches for the non-excluded registered clients (last writer wins)
and emits a warning — not an error — and the call returns normally. -/
theorem C7_request_meta_overwrites_with_warning {V : Type}
    (reqs : List (Option String × List (String × FutState V)))
    (clients excl : List String) (rid : Option String)
    (r : List (String × FutState V))
    (hdup : lookupKey reqs rid = some r) :
    lookupKey (requestMeta reqs clients rid excl).1 rid
      = some (newRequest clients excl) ∧
    (requestMeta reqs clients rid excl).2 = some LogLevel.warning := by
  constructor
  · exact lookupKey_setKey_self reqs rid (newRequest clients excl)
  · simp [requestMeta, hdup]

/-- A request table with an unclaimed request stored under ID A. -/
def c7Requests : List (Option String × List (String × FutState Nat)) :=
  [(some ("A"), [(("cam"), FutState.pending)])]

/-- C7 (witness): re-requesting under ID A overwrites the stored
request with pending fetches for both registered clients and logs a
warning. -/
theorem C7_request_meta_overwrites_with_warning_witness :
    lookupKey (requestMeta c7Requests [("cam"), ("mgr")] (some ("A")) []).1 (some ("A"))
      = some (newRequest [("cam"), ("mgr")] []) ∧
    (requestMeta c7Requests [("cam"), ("mgr")] (some ("A")) []).2
      = some LogLevel.warning := by
  exact C7_request_meta_overwrites_with_warning c7Requests [("cam"), ("mgr")] []
    (some ("A")) [(("cam"), FutState.pending)] rfl

/-- C9: `get_meta` never fails on an unknown key — every requested
key without a registered metadata call maps to the `unknown` marker in
the result — and with `metakeys` unset the result is exactly the
registered keys, each mapped to the value its registered call
returns. -/
theorem C9_get_meta_unknown_and_all {V : Type} (mc : List (String × V))
    (ks : List String) :
    (∀ k ∈ ks, lookupKey mc k = none →
        (k, MetaOut.unknown) ∈ getMeta mc (some ks)) ∧
    ((mc.map Prod.fst).Nodup →
        getMeta mc none = mc.map (fun p => (p.1, MetaOut.val p.2))) := by
  constructor
  · intro k hk hnone
    have hmem := List.mem_map_of_mem (fun k =>
      (k, match lookupKey mc k with
          | none => MetaOut.unknown
          | some v => MetaOut.val v)) hk
    simp only [hnone] at hmem
    simpa [getMeta] using hmem
  · intro hnd
    show (mc.map Prod.fst).map _ = _
    rw [List.map_map]
    apply List.map_congr_left
    intro p hp
    simp [lookupKey_of_nodup mc hnd p hp]

/-- C9 (witness): a key without a registered call maps to `unknown`,
and the all-keys form returns every registered entry evaluated. -/
theorem C9_get_meta_unknown_and_all_witness :
    (("b", MetaOut.unknown (V := Nat)) ∈ getMeta [(("a"), (1 : Nat))] (some [("b")])) ∧
    getMeta [(("a"), (1 : Nat))] none = [(("a"), MetaOut.val 1)] := by
  have h := C9_get_meta_unknown_and_all [(("a"), (1 : Nat))] [("b")]
  exact ⟨h.1 ("b") (by decide) (by decide), h.2 (by decide)⟩

/-- C10: every assignment to `investigation` that succeeds (raises no
error) stores the new investigation name and resets the stored
experiment name to None. -/
theorem C10_investigation_resets_experiment (st : MgrState) (v : Option String)
    (hok : (setInvestigation st v).2 = none) :
    (setInvestigation st v).1.config.experiment = none ∧
    (setInvestigation st v).1.config.investigation = v := by
  cases v with
  | none => simp [setInvestigation] at hok
  | some s =>
      by_cases hr : st.running
      · simp [setInvestigation, hr] at hok
      · by_cases hv : validName s
        · simp [setInvestigation, hr, hv]
        · simp [setInvestigation, hr, hv] at hok

/-- A manager state with both an investigation and an experiment set
and no scan running. -/
def c10State : MgrState :=
  { config := { investigation := some ("inv0"), experiment := some ("e0") },
    running := false }

/-- C10 (witness): a successful change of investigation resets the
stored experiment name. -/
theorem C10_investigation_resets_experiment_witness :
    (setInvestigation c10State (some ("newinv"))).1.config.experiment = none ∧
    (setInvestigation c10State (some ("newinv"))).1.config.investigation
      = some ("newinv") := by
  exact C10_investigation_resets_experiment c10State (some ("newinv")) (by decide)
